import Mathlib

/-
Verification development for the sales-deck backend
(src/sales_deck_backend.py).  The Python module is shallowly embedded:
the in-memory registry `generated_files` becomes an association list,
the filesystem becomes an explicit record of existing paths (plus the
set of paths whose deletion raises, modelling OSError), datetimes
become natural-number seconds, and the external text-generation call
becomes an oracle parameter (`none` = the call failed or its reply was
unparsable, `some sl` = the call succeeded and parsed to slide list
`sl`).  Flask's `abort` raises an HTTPException, which is a subclass
of `Exception`; the embedding keeps that semantics explicitly.
-/

/-- Python `str.strip()`: drop whitespace from both ends.  Implemented
by structural recursion on the character list so that concrete inputs
evaluate by `rfl`/`decide`. -/
def pyStrip (s : String) : String :=
  String.mk (((s.data.dropWhile Char.isWhitespace).reverse.dropWhile
    Char.isWhitespace).reverse)

/-- Python `"x" in s` for a single character. -/
def pyContainsChar (s : String) (c : Char) : Bool :=
  s.data.contains c

/-- Helper for `str.split(sep)` with a one-character separator. -/
def splitCharAux (sep : Char) : List Char → List Char → List (List Char)
  | [], acc => [acc.reverse]
  | c :: rest, acc =>
    if c == sep then acc.reverse :: splitCharAux sep rest []
    else splitCharAux sep rest (c :: acc)

/-- Python `s.split(sep)` with a one-character separator. -/
def pySplit (s : String) (sep : Char) : List String :=
  (splitCharAux sep s.data []).map String.mk

/-- Python `s.replace(old, new)` for one-character old/new. -/
def pyReplaceChar (s : String) (old new : Char) : String :=
  String.mk (s.data.map (fun c => if c == old then new else c))

/-- JSON scalar values as they can appear in a request body field. -/
inductive JValue where
  | str (s : String)
  | num (n : Int)
  | bool (b : Bool)
  | null
deriving DecidableEq

/-- Python truthiness of a JSON value, as used by `if logo_base64:`. -/
def truthy : JValue → Bool
  | JValue.str s => !(s == "")
  | JValue.num n => !(n == 0)
  | JValue.bool b => b
  | JValue.null => false

/-- Whether a JSON value is a string; `.strip()` on a non-string raises
AttributeError in the source. -/
def isStr : JValue → Bool
  | JValue.str _ => true
  | _ => false

/-- A parsed JSON request body: field name to value, first binding wins
(Python dicts have unique keys). -/
abbrev Data := List (String × JValue)

/-- Dictionary lookup `data[field]` / `field in data`. -/
def lookupField (d : Data) (f : String) : Option JValue :=
  (d.find? (fun p => p.1 == f)).map (fun p => p.2)

/-- Projection of a field known to hold a string (used after the
presence scan of `validate_input` has succeeded). -/
def getStrField (d : Data) (f : String) : String :=
  match lookupField d f with
  | some (JValue.str s) => s
  | _ => ""

/-- One slide: a title and its bullet list, as produced by
`generate_slide_content` and consumed by `create_powerpoint`. -/
structure Slide where
  title : String
  content : List String
deriving DecidableEq

/-- One record of the `generated_files` dict: path, display filename
and creation time (seconds). -/
structure FileInfo where
  path : String
  filename : String
  created_at : Nat
deriving DecidableEq

/-- The `generated_files` in-memory registry: insertion-ordered map
from file id to record. -/
abbrev Store := List (String × FileInfo)

/-- Lookup `generated_files[file_id]`. -/
def lookupStore (s : Store) (id : String) : Option FileInfo :=
  (s.find? (fun p => p.1 == id)).map (fun p => p.2)

/-- Deletion `del generated_files[file_id]` (keys are unique). -/
def removeKey (s : Store) (id : String) : Store :=
  s.filter (fun p => !(p.1 == id))

/-- The local filesystem: which paths exist, and which paths make
`os.remove` raise (permission errors and the like). -/
structure FS where
  files : List String
  failRemove : List String
deriving DecidableEq

/-- Model of `os.path.exists`. -/
def FS.pathExists (fs : FS) (p : String) : Bool :=
  fs.files.contains p

/-- Whether `os.remove p` would raise for this filesystem. -/
def FS.removeFails (fs : FS) (p : String) : Bool :=
  fs.failRemove.contains p

/-- Effect of a successful `os.remove p`. -/
def FS.remove (fs : FS) (p : String) : FS :=
  { fs with files := fs.files.erase p }

/-- Effect of writing a file at path `p` (creating it if absent). -/
def FS.write (fs : FS) (p : String) : FS :=
  { fs with files := if fs.files.contains p then fs.files else fs.files ++ [p] }

/-- Bodies of HTTP responses observable at the client: a JSON object
with an `error` string, the generate endpoint's JSON success object
(projected to its `slides_generated` field), a file attachment, or the
framework's default HTML error page (no registered handler). -/
inductive Body where
  | jsonError (msg : String)
  | jsonSuccess (slides_generated : Nat)
  | fileAttachment (filename : String)
  | htmlDefault
deriving DecidableEq

/-- An HTTP response: status code and body. -/
structure Response where
  status : Nat
  body : Body
deriving DecidableEq

/-- The error handlers registered via `app.errorhandler`: 404 and 500
only (no handler is registered for 410). -/
def registeredErrorBody (code : Nat) : Option String :=
  if code == 404 then some "File not found or expired"
  else if code == 500 then some "Internal server error"
  else none

/-- Response Flask produces when an HTTPException with this status
propagates to the framework: the registered JSON handler if one
exists, its default HTML page otherwise. -/
def errorResponse (code : Nat) : Response :=
  match registeredErrorBody code with
  | some msg => { status := code, body := Body.jsonError msg }
  | none => { status := code, body := Body.htmlDefault }

/-- The five required fields, in the order `validate_input` checks
them. -/
def requiredFields : List String :=
  ["company_name", "industry", "buyer_persona", "main_pain_point", "use_case"]

/-- Outcome of `validate_input`: clean, a 400-message, or an
AttributeError raised by calling `.strip()` on a non-string value. -/
inductive ValResult where
  | ok
  | invalid (msg : String)
  | attrError
deriving DecidableEq

/-- The presence/non-blank loop of `validate_input`:
`if field not in data or not data[field].strip(): return False, msg`.
A non-string value raises AttributeError at `.strip()`. -/
def checkPresence : List String → Data → ValResult
  | [], _ => ValResult.ok
  | f :: rest, d =>
    match lookupField d f with
    | none => ValResult.invalid ("Missing or empty required field: " ++ f)
    | some (JValue.str s) =>
      if pyStrip s == "" then ValResult.invalid ("Missing or empty required field: " ++ f)
      else checkPresence rest d
    | some _ => ValResult.attrError

/-- Embedding of `validate_input`: the presence loop, then the length
bounds, checked on the raw (untrimmed) strings in source order. -/
def validate_input (d : Data) : ValResult :=
  match checkPresence requiredFields d with
  | ValResult.ok =>
    if (getStrField d "company_name").length > 100 then
      ValResult.invalid "Company name too long (max 100 characters)"
    else if (getStrField d "industry").length > 100 then
      ValResult.invalid "Industry too long (max 100 characters)"
    else if (getStrField d "buyer_persona").length > 200 then
      ValResult.invalid "Buyer persona too long (max 200 characters)"
    else if (getStrField d "main_pain_point").length > 500 then
      ValResult.invalid "Main pain point too long (max 500 characters)"
    else if (getStrField d "use_case").length > 500 then
      ValResult.invalid "Use case too long (max 500 characters)"
    else ValResult.ok
  | r => r

/-- The static fallback template of `generate_slide_content`,
transcribed slide by slide from the source's except-branch. -/
def fallback_slides (company_name industry main_pain_point use_case : String) :
    List Slide :=
  [ { title := "Welcome to " ++ company_name,
      content := ["Professional solutions for " ++ industry,
                  "Driving innovation and growth",
                  "Your trusted partner"] },
    { title := "The Challenge",
      content := [main_pain_point, "Industry-wide impact", "Need for solution"] },
    { title := "Our Solution",
      content := ["Innovative approach", "Proven methodology", "Measurable results"] },
    { title := "Product Overview",
      content := ["Key features", "Benefits", "Competitive advantages"] },
    { title := "Use Case",
      content := [use_case, "Implementation strategy", "Expected outcomes"] },
    { title := "Success Story",
      content := ["Client challenge", "Our solution", "Results achieved"] },
    { title := "Investment & ROI",
      content := ["Competitive pricing", "Clear value proposition", "Return on investment"] },
    { title := "Next Steps",
      content := ["Schedule demo", "Discuss implementation", "Begin partnership"] } ]

/-- Embedding of `generate_slide_content`.  The external call and both
JSON-parsing attempts are abstracted into one oracle: `ext = some sl`
means the call succeeded and a slide list `sl` was decoded from the
reply (the source performs no validation of that list, in particular
not of its length; a reply whose object lacks a "slides" key decodes
to `[]`); `ext = none` means the call raised or no JSON object could
be decoded, in which case the except-branch returns the fallback. -/
def generate_slide_content (ext : Option (List Slide))
    (company_name industry buyer_persona main_pain_point use_case : String) :
    List Slide :=
  match ext with
  | some sl => sl
  | none => fallback_slides company_name industry main_pain_point use_case

/-- Result of `create_powerpoint`, projected to the claim-relevant
facts: the slides rendered and whether the logo picture was placed on
the first slide.  The logo is placed only when a logo path was
supplied and that path exists; a failing `add_picture` is logged and
ignored in the source, modelled here as success. -/
structure Deck where
  slides : List Slide
  companyName : String
  logoIncluded : Bool
deriving DecidableEq

/-- Embedding of `create_powerpoint`. -/
def create_powerpoint (slide_data : List Slide) (company_name : String)
    (logo_path : Option String) (fs : FS) : Deck :=
  { slides := slide_data,
    companyName := company_name,
    logoIncluded :=
      match logo_path with
      | some p => fs.pathExists p
      | none => false }

/-- The data-URL stripping step of `save_base64_image`:
`if ',' in base64_data: base64_data = base64_data.split(',')[1]`. -/
def stripDataUrl (b64 : String) : String :=
  if pyContainsChar b64 ',' then (pySplit b64 ',').getD 1 "" else b64

/-- Embedding of `save_base64_image`.  `decodeOk` is the oracle for
`base64.b64decode` succeeding on the (prefix-stripped) payload; on any
exception the source logs and returns `None`.  The file write is
modelled as succeeding when the decode does. -/
def save_base64_image (decodeOk : String → Bool) (base64_data filename : String)
    (fs : FS) : FS × Option String :=
  let d := stripDataUrl base64_data
  if decodeOk d then
    let filepath := "temp_files/" ++ filename
    (fs.write filepath, some filepath)
  else (fs, none)

/-- Deck filename built by `generate_deck` from the trimmed company
name and the fresh uuid. -/
def deckFilename (company_trimmed file_id : String) : String :=
  "sales_deck_" ++ (pyReplaceChar company_trimmed ' ' '_') ++ "_" ++ file_id ++ ".pptx"

/-- Environment oracles of one `generate_deck` request: the external
generation outcome, the base64-decode oracle, the current time and the
two freshly generated unique tokens. -/
structure GenEnv where
  ext : Option (List Slide)
  decodeOk : String → Bool
  now : Nat
  file_id : String
  logo_uuid : String

/-- Observable outcome of one `generate_deck` request: the registry
and filesystem afterwards, the HTTP response, whether the external
text-generation call was reached, and the logo path passed to the
renderer. -/
structure GenResult where
  store : Store
  fs : FS
  response : Response
  extCalled : Bool
  logoPath : Option String

/-- Message of the handler's catch-all `jsonify` 500 body; the source
appends `str(e)`, whose text is abstracted away here. -/
def internalErrorMsg : String := "Internal server error: "

/-- Embedding of the `generate_deck` handler after the JSON body has
been parsed.  An AttributeError escaping `validate_input` is caught by
the handler's catch-all `except` and answered with the inline 500 JSON
body.  On the happy path the five fields are trimmed, the optional
logo is saved (errors inside `save_base64_image` yield `None`, and a
truthy non-string logo value raises inside that same try and also
yields `None`), content is generated, the deck is rendered and saved,
the record is inserted into the registry, and the temporary logo file
is removed; an `os.remove` failure there raises after registration and
is answered 500 by the catch-all. -/
def generate_deck (env : GenEnv) (data : Data) (store : Store) (fs : FS) :
    GenResult :=
  match validate_input data with
  | ValResult.attrError =>
    { store := store, fs := fs,
      response := { status := 500, body := Body.jsonError internalErrorMsg },
      extCalled := false, logoPath := none }
  | ValResult.invalid msg =>
    { store := store, fs := fs,
      response := { status := 400, body := Body.jsonError msg },
      extCalled := false, logoPath := none }
  | ValResult.ok =>
    let c := pyStrip (getStrField data "company_name")
    let ind := pyStrip (getStrField data "industry")
    let bp := pyStrip (getStrField data "buyer_persona")
    let mp := pyStrip (getStrField data "main_pain_point")
    let uc := pyStrip (getStrField data "use_case")
    let logoVal := (lookupField data "logo_base64").getD (JValue.str "")
    let saveRes : FS × Option String :=
      if truthy logoVal then
        match logoVal with
        | JValue.str s =>
          save_base64_image env.decodeOk s ("logo_" ++ env.logo_uuid ++ ".png") fs
        | _ => (fs, none)
      else (fs, none)
    let fs1 := saveRes.1
    let logo_path := saveRes.2
    let slide_data := generate_slide_content env.ext c ind bp mp uc
    let filename := deckFilename c env.file_id
    let filepath := "temp_files/" ++ filename
    let fs2 := FS.write fs1 filepath
    let store2 := store ++ [(env.file_id,
      { path := filepath, filename := filename, created_at := env.now })]
    match logo_path with
    | some p =>
      if FS.pathExists fs2 p then
        if FS.removeFails fs2 p then
          { store := store2, fs := fs2,
            response := { status := 500, body := Body.jsonError internalErrorMsg },
            extCalled := true, logoPath := logo_path }
        else
          { store := store2, fs := FS.remove fs2 p,
            response := { status := 200, body := Body.jsonSuccess slide_data.length },
            extCalled := true, logoPath := logo_path }
      else
        { store := store2, fs := fs2,
          response := { status := 200, body := Body.jsonSuccess slide_data.length },
          extCalled := true, logoPath := logo_path }
    | none =>
      { store := store2, fs := fs2,
        response := { status := 200, body := Body.jsonSuccess slide_data.length },
        extCalled := true, logoPath := logo_path }

/-- Exceptions that can escape the body of `download_file`'s `try`:
an HTTPException raised by `abort(code)`, or an OSError from
`os.remove`. -/
inductive InnerErr where
  | httpAbort (code : Nat)
  | osError
deriving DecidableEq

/-- The body of `download_file`'s `try` block: absent id aborts 404;
a present id whose file is missing is deleted from the registry and
aborts 404; a present, existing, expired id has its file removed and
its record deleted and aborts 410; otherwise the record is returned
for serving. -/
def download_inner (now : Nat) (file_id : String) (store : Store) (fs : FS) :
    Store × FS × Except InnerErr FileInfo :=
  match lookupStore store file_id with
  | none => (store, fs, Except.error (InnerErr.httpAbort 404))
  | some info =>
    if FS.pathExists fs info.path then
      if now - info.created_at > 3600 then
        if FS.removeFails fs info.path then
          (store, fs, Except.error InnerErr.osError)
        else
          (removeKey store file_id, FS.remove fs info.path,
           Except.error (InnerErr.httpAbort 410))
      else (store, fs, Except.ok info)
    else (removeKey store file_id, fs, Except.error (InnerErr.httpAbort 404))

/-- Embedding of the `download_file` handler.  Its `except Exception`
clause catches every exception raised in the `try` body — including
the HTTPExceptions raised by `abort(404)` and `abort(410)`, since
HTTPException subclasses Exception — and calls `abort(500)`, whose
exception propagates to Flask and is answered by the registered 500
handler. -/
def download_file (now : Nat) (file_id : String) (store : Store) (fs : FS) :
    Store × FS × Response :=
  match download_inner now file_id store fs with
  | (s, f, Except.ok info) =>
    (s, f, { status := 200, body := Body.fileAttachment info.filename })
  | (s, f, Except.error _) => (s, f, errorResponse 500)

/-- The scan loop of `cleanup_old_files`: walks the registry in
insertion order, collects expired ids into `files_to_remove`, and
deletes each expired record's backing file when it exists.  The result
is the filesystem after the deletions performed so far together with
`some ids` on a clean scan, or `none` when an `os.remove` raised — the
exception aborts the whole pass (the `try` wraps both loops), so the
collected ids are discarded. -/
def scanExpired (now : Nat) : List (String × FileInfo) → FS →
    FS × Option (List String)
  | [], fs => (fs, some [])
  | (file_id, info) :: rest, fs =>
    if now - info.created_at > 3600 then
      if FS.pathExists fs info.path then
        if FS.removeFails fs info.path then (fs, none)
        else
          match scanExpired now rest (FS.remove fs info.path) with
          | (fs2, none) => (fs2, none)
          | (fs2, some ids) => (fs2, some (file_id :: ids))
      else
        match scanExpired now rest fs with
        | (fs2, none) => (fs2, none)
        | (fs2, some ids) => (fs2, some (file_id :: ids))
    else scanExpired now rest fs

/-- One iteration of the `while True` body of `cleanup_old_files`
(the spec's `evict_expired`): on a clean scan the second loop deletes
the collected records from the registry; when the scan raised, the
`except` logs and the pass ends with the registry untouched (the
deletion loop never ran). -/
def cleanup_pass (now : Nat) (store : Store) (fs : FS) : Store × FS :=
  match scanExpired now store fs with
  | (fs2, none) => (store, fs2)
  | (fs2, some ids) => (ids.foldl (fun s i => removeKey s i) store, fs2)

/-- Whether an optional field value is absent or a string, so that the
presence scan cannot raise AttributeError on it. -/
def optAllStr : Option JValue → Bool
  | none => true
  | some v => isStr v

/-- Per-field length bound of `validate_input`. -/
def fieldBound : String → Nat
  | "company_name" => 100
  | "industry" => 100
  | "buyer_persona" => 200
  | _ => 500

/-- A field value that `validate_input` rejects with a 400 message:
missing, blank after trimming, or over its length bound. -/
def badField (d : Data) (f : String) : Bool :=
  match lookupField d f with
  | none => true
  | some (JValue.str s) => (pyStrip s == "") || decide (s.length > fieldBound f)
  | some _ => false

/-- A field whose value is a present, non-blank string (it passes its
step of the presence scan). -/
def presentNonBlank (d : Data) (g : String) : Bool :=
  match lookupField d g with
  | some (JValue.str s) => !(pyStrip s == "")
  | _ => false

theorem checkPresence_ne_attr (d : Data) :
    ∀ fields : List String,
      (∀ f ∈ fields, optAllStr (lookupField d f) = true) →
      checkPresence fields d ≠ ValResult.attrError := by
  intro fields
  induction fields with
  | nil => intro _; simp [checkPresence]
  | cons g rest ih =>
    intro hall
    have hg := hall g (List.mem_cons_self g rest)
    have hrest : ∀ f ∈ rest, optAllStr (lookupField d f) = true :=
      fun f hf => hall f (List.mem_cons_of_mem g hf)
    cases hl : lookupField d g with
    | none => simp [checkPresence, hl]
    | some v =>
      cases v with
      | str s =>
        cases hs : (pyStrip s == "") with
        | true => simp [checkPresence, hl, hs]
        | false => simpa [checkPresence, hl, hs] using ih hrest
      | num n => rw [hl] at hg; simp [optAllStr, isStr] at hg
      | bool b => rw [hl] at hg; simp [optAllStr, isStr] at hg
      | null => rw [hl] at hg; simp [optAllStr, isStr] at hg

theorem checkPresence_ne_ok_of_missing (d : Data) :
    ∀ (fields : List String) (f : String), f ∈ fields → lookupField d f = none →
      checkPresence fields d ≠ ValResult.ok := by
  intro fields
  induction fields with
  | nil => intro f hf; exact absurd hf (List.not_mem_nil f)
  | cons g rest ih =>
    intro f hf hnone
    rcases List.mem_cons.mp hf with rfl | hf2
    · simp [checkPresence, hnone]
    · cases hl : lookupField d g with
      | none => simp [checkPresence, hl]
      | some v =>
        cases v with
        | str s =>
          cases hs : (pyStrip s == "") with
          | true => simp [checkPresence, hl, hs]
          | false => simpa [checkPresence, hl, hs] using ih f hf2 hnone
        | num n => simp [checkPresence, hl]
        | bool b => simp [checkPresence, hl]
        | null => simp [checkPresence, hl]

theorem checkPresence_ne_ok_of_blank (d : Data) (t : String) :
    ∀ (fields : List String) (f : String), f ∈ fields →
      lookupField d f = some (JValue.str t) → (pyStrip t == "") = true →
      checkPresence fields d ≠ ValResult.ok := by
  intro fields
  induction fields with
  | nil => intro f hf; exact absurd hf (List.not_mem_nil f)
  | cons g rest ih =>
    intro f hf hlk hblank
    rcases List.mem_cons.mp hf with rfl | hf2
    · simp [checkPresence, hlk, hblank]
    · cases hl : lookupField d g with
      | none => simp [checkPresence, hl]
      | some v =>
        cases v with
        | str s =>
          cases hs : (pyStrip s == "") with
          | true => simp [checkPresence, hl, hs]
          | false => simpa [checkPresence, hl, hs] using ih f hf2 hlk hblank
        | num n => simp [checkPresence, hl]
        | bool b => simp [checkPresence, hl]
        | null => simp [checkPresence, hl]

theorem validate_eq_checkPresence_of_ne_ok (d : Data)
    (h : checkPresence requiredFields d ≠ ValResult.ok) :
    validate_input d = checkPresence requiredFields d := by
  unfold validate_input
  cases hcp : checkPresence requiredFields d with
  | ok => exact absurd hcp h
  | invalid m => rfl
  | attrError => rfl

theorem checkPresence_ok_of_validate_ok (d : Data)
    (h : validate_input d = ValResult.ok) :
    checkPresence requiredFields d = ValResult.ok := by
  by_contra hne
  rw [validate_eq_checkPresence_of_ne_ok d hne] at h
  exact hne h

theorem validate_ne_attr (d : Data)
    (h : checkPresence requiredFields d ≠ ValResult.attrError) :
    validate_input d ≠ ValResult.attrError := by
  unfold validate_input
  cases hcp : checkPresence requiredFields d with
  | ok => split_ifs <;> simp
  | invalid m => simp
  | attrError => exact absurd hcp h

theorem validate_ne_ok_of_long (d : Data) (f : String) (s : String)
    (hf : f ∈ requiredFields) (hl : lookupField d f = some (JValue.str s))
    (hlen : s.length > fieldBound f) :
    validate_input d ≠ ValResult.ok := by
  intro hok
  unfold validate_input at hok
  cases hcp : checkPresence requiredFields d with
  | invalid m => rw [hcp] at hok; exact absurd hok (by simp)
  | attrError => rw [hcp] at hok; exact absurd hok (by simp)
  | ok =>
    rw [hcp] at hok
    have hget : getStrField d f = s := by simp [getStrField, hl]
    fin_cases hf <;>
      (rw [hget] at hok; simp [fieldBound] at hlen;
       split_ifs at hok <;> simp_all)

/-- Shared concrete fixtures for witnesses. -/
def fs0 : FS := { files := [], failRemove := [] }

def dataW : Data :=
  [("company_name", JValue.str "Acme"), ("industry", JValue.str "Tech"),
   ("buyer_persona", JValue.str "CTO"), ("main_pain_point", JValue.str "slow"),
   ("use_case", JValue.str "demos")]

def envW : GenEnv :=
  { ext := none, decodeOk := fun _ => false, now := 0,
    file_id := "fid", logo_uuid := "lid" }

/-- C7: a generate-deck body with a required field missing, blank after
trimming, or over its length bound is answered 400, and the external
text-generation call is never reached.  The body is assumed to carry
only string (or absent) values for the required fields — a non-string
value raises instead and is the subject of C10. -/
theorem c7_validation_rejects_before_external_call
    (env : GenEnv) (data : Data) (store : Store) (fs : FS)
    (hstr : ∀ f ∈ requiredFields, optAllStr (lookupField data f) = true)
    (hbad : ∃ f ∈ requiredFields, badField data f = true) :
    (generate_deck env data store fs).response.status = 400 ∧
    (∃ m, (generate_deck env data store fs).response.body = Body.jsonError m) ∧
    (generate_deck env data store fs).extCalled = false := by
  obtain ⟨f, hf, hb⟩ := hbad
  have hne_ok : validate_input data ≠ ValResult.ok := by
    intro hok
    have hcp := checkPresence_ok_of_validate_ok data hok
    unfold badField at hb
    cases hl : lookupField data f with
    | none =>
      rw [hl] at hb
      exact checkPresence_ne_ok_of_missing data requiredFields f hf hl hcp
    | some v =>
      rw [hl] at hb
      cases v with
      | str s =>
        have hb2 : (pyStrip s == "") = true ∨ s.length > fieldBound f := by
          simpa using hb
        rcases hb2 with hblank | hlong
        · exact checkPresence_ne_ok_of_blank data s requiredFields f hf hl hblank hcp
        · exact validate_ne_ok_of_long data f s hf hl hlong hok
      | num n => simp at hb
      | bool b2 => simp at hb
      | null => simp at hb
  have hne_attr : validate_input data ≠ ValResult.attrError :=
    validate_ne_attr data (checkPresence_ne_attr data requiredFields hstr)
  cases hv : validate_input data with
  | ok => exact absurd hv hne_ok
  | attrError => exact absurd hv hne_attr
  | invalid m =>
    refine ⟨by simp [generate_deck, hv], ⟨m, by simp [generate_deck, hv]⟩,
      by simp [generate_deck, hv]⟩

/-- C7 witness: a body omitting `use_case` is rejected with 400 and no
external call. -/
theorem c7_witness :
    (generate_deck envW
      [("company_name", JValue.str "Acme"), ("industry", JValue.str "Tech"),
       ("buyer_persona", JValue.str "CTO"), ("main_pain_point", JValue.str "slow")]
      [] fs0).response.status = 400 ∧
    (generate_deck envW
      [("company_name", JValue.str "Acme"), ("industry", JValue.str "Tech"),
       ("buyer_persona", JValue.str "CTO"), ("main_pain_point", JValue.str "slow")]
      [] fs0).extCalled = false := by
  have h := c7_validation_rejects_before_external_call envW
    [("company_name", JValue.str "Acme"), ("industry", JValue.str "Tech"),
     ("buyer_persona", JValue.str "CTO"), ("main_pain_point", JValue.str "slow")]
    [] fs0 (by decide) ⟨"use_case", by decide, by decide⟩
  exact ⟨h.1, h.2.2⟩

theorem checkPresence_attr_of_reached (d : Data) :
    ∀ (fields : List String) (f : String) (v : JValue),
      f ∈ fields →
      (∀ g ∈ fields.takeWhile (fun g => !(g == f)), presentNonBlank d g = true) →
      lookupField d f = some v → isStr v = false →
      checkPresence fields d = ValResult.attrError := by
  intro fields
  induction fields with
  | nil => intro f v hf; exact absurd hf (List.not_mem_nil f)
  | cons g rest ih =>
    intro f v hf hpre hlk hns
    by_cases hgf : g = f
    · subst hgf
      cases v with
      | str s => simp [isStr] at hns
      | num n => simp [checkPresence, hlk]
      | bool b => simp [checkPresence, hlk]
      | null => simp [checkPresence, hlk]
    · have hgcond : (!(g == f)) = true := by simp [hgf]
      have htake : (g :: rest).takeWhile (fun x => !(x == f)) =
          g :: rest.takeWhile (fun x => !(x == f)) := by
        simp [List.takeWhile, hgcond]
      have hgpnb : presentNonBlank d g = true := by
        apply hpre g; rw [htake]; exact List.mem_cons_self _ _
      have hpre2 : ∀ x ∈ rest.takeWhile (fun x => !(x == f)),
          presentNonBlank d x = true := by
        intro x hx
        apply hpre x
        rw [htake]
        exact List.mem_cons_of_mem g hx
      have hfrest : f ∈ rest :=
        (List.mem_cons.mp hf).resolve_left (fun h => hgf h.symm)
      unfold presentNonBlank at hgpnb
      cases hlg : lookupField d g with
      | none => rw [hlg] at hgpnb; simp at hgpnb
      | some w =>
        rw [hlg] at hgpnb
        cases w with
        | str s =>
          have hblank : (pyStrip s == "") = false := by
            simpa using hgpnb
          simp only [checkPresence, hlg, hblank, Bool.false_eq_true, if_false]
          exact ih f v hfrest hpre2 hlk hns
        | num n => simp at hgpnb
        | bool b => simp at hgpnb
        | null => simp at hgpnb

/-- C10 (amended): when the presence scan reaches a required field
whose value is present but not a string — every field checked before
it is a present, non-blank string — `.strip()` raises AttributeError,
the handler's catch-all converts it, and the response is 500, not
400. -/
theorem c10_nonstring_field_is_500
    (env : GenEnv) (data : Data) (store : Store) (fs : FS)
    (f : String) (v : JValue)
    (hf : f ∈ requiredFields)
    (hpre : ∀ g ∈ requiredFields.takeWhile (fun g => !(g == f)),
      presentNonBlank data g = true)
    (hlk : lookupField data f = some v) (hns : isStr v = false) :
    (generate_deck env data store fs).response.status = 500 ∧
    (generate_deck env data store fs).response.status ≠ 400 := by
  have hcp := checkPresence_attr_of_reached data requiredFields f v hf hpre hlk hns
  have hv : validate_input data = ValResult.attrError := by
    unfold validate_input; rw [hcp]
  constructor <;> simp [generate_deck, hv]

/-- C10 counterexample: a body whose `industry` is the JSON number 5
but whose `company_name` is missing is answered 400 (the presence scan
rejects `company_name` before reaching the non-string value), refuting
the claim that every body with a present non-string required field is
answered 500. -/
theorem c10_counterexample :
    lookupField [("industry", JValue.num 5)] "industry" = some (JValue.num 5) ∧
    isStr (JValue.num 5) = false ∧
    (generate_deck envW [("industry", JValue.num 5)] [] fs0).response.status = 400 ∧
    (generate_deck envW [("industry", JValue.num 5)] [] fs0).response.status ≠ 500 :=
  ⟨rfl, rfl, rfl, by decide⟩

/-- C10 witness: a body whose `company_name` is a valid string and
whose `industry` is the JSON number 7 is answered 500. -/
theorem c10_witness :
    (generate_deck envW
      [("company_name", JValue.str "Acme"), ("industry", JValue.num 7)]
      [] fs0).response.status = 500 :=
  (c10_nonstring_field_is_500 envW
    [("company_name", JValue.str "Acme"), ("industry", JValue.num 7)]
    [] fs0 "industry" (JValue.num 7) (by decide) (by decide) rfl rfl).1

/-- Fixtures for the download and reclamation claims. -/
def infoA : FileInfo := { path := "p", filename := "f", created_at := 0 }

def storeA : Store := [("a", infoA)]

def fsA : FS := { files := ["p"], failRemove := [] }

/-- C1 (evaluation of the code at the claimed inputs): `abort(404)` and
`abort(410)` raise HTTPExceptions that the handler's own
`except Exception` catches, answering 500 in every failure case of the
download endpoint: for an absent identifier, for a present identifier
whose record is expired (whose backing file is deleted and whose record
is evicted as the claim describes), and for the second fetch of the
identifier evicted by the expired fetch.  The claimed 404 and 410
statuses never reach the client. -/
theorem c1_download_statuses_are_500 :
    (download_file 0 "missing" [] fs0).2.2 =
      { status := 500, body := Body.jsonError "Internal server error" } ∧
    (download_file 4000 "a" storeA fsA).2.2 =
      { status := 500, body := Body.jsonError "Internal server error" } ∧
    (download_file 4000 "a" storeA fsA).1 = [] ∧
    (download_file 4000 "a" storeA fsA).2.1 = { files := [], failRemove := [] } ∧
    (download_file 4000 "a"
      (download_file 4000 "a" storeA fsA).1
      (download_file 4000 "a" storeA fsA).2.1).2.2.status = 500 ∧
    (download_file 4000 "a" storeA fsA).2.2.status ≠ 410 ∧
    (download_file 0 "missing" [] fs0).2.2.status ≠ 404 :=
  ⟨rfl, rfl, rfl, rfl, rfl, by decide, by decide⟩

/-- Fixtures for the reclamation claims. -/
def infoPa : FileInfo := { path := "pa", filename := "fa", created_at := 0 }

def infoPb : FileInfo := { path := "pb", filename := "fb", created_at := 0 }

def store5 : Store := [("a", infoPa), ("b", infoPb)]

def fs5 : FS := { files := ["pa", "pb"], failRemove := ["pa"] }

/-- C5 counterexample: a store with two expired records whose first
backing-file deletion raises; the pass removes NEITHER record from the
mapping (the exception aborts the pass before the deletion loop) and
never processes the second expired record, refuting the claim that the
failing record is still removed and the other expired record still
processed. -/
theorem c5_counterexample :
    (4000 - infoPa.created_at > 3600) ∧
    (4000 - infoPb.created_at > 3600) ∧
    fs5.pathExists "pa" = true ∧
    fs5.pathExists "pb" = true ∧
    fs5.removeFails "pa" = true ∧
    cleanup_pass 4000 store5 fs5 = (store5, fs5) :=
  ⟨by decide, by decide, rfl, rfl, rfl, rfl⟩

theorem scanExpired_append_fails (now : Nat) (idf : String) (rf : FileInfo)
    (post : List (String × FileInfo))
    (h1 : now - rf.created_at > 3600) :
    ∀ (pre : List (String × FileInfo)) (fs fs1 : FS) (ids : List String),
      scanExpired now pre fs = (fs1, some ids) →
      fs1.pathExists rf.path = true →
      fs1.removeFails rf.path = true →
      scanExpired now (pre ++ (idf, rf) :: post) fs = (fs1, none) := by
  intro pre
  induction pre with
  | nil =>
    intro fs fs1 ids hscan hex hfail
    have hfs : fs = fs1 := by
      have : (fs, some ([] : List String)) = (fs1, some ids) := by
        simpa [scanExpired] using hscan
      exact (Prod.mk.injEq _ _ _ _ ▸ this).1
    subst hfs
    simp [scanExpired, h1, hex, hfail]
  | cons hd tl ih =>
    intro fs fs1 ids hscan hex hfail
    obtain ⟨id0, r0⟩ := hd
    by_cases he : now - r0.created_at > 3600
    · cases hpe : FS.pathExists fs r0.path with
      | false =>
        rw [scanExpired, if_pos he, hpe] at hscan
        simp only [Bool.false_eq_true, if_false] at hscan
        rcases hrec : scanExpired now tl fs with ⟨fs2, o⟩
        rw [hrec] at hscan
        cases o with
        | none => simp at hscan
        | some ids2 =>
          obtain ⟨hfs, hids⟩ : fs2 = fs1 ∧ id0 :: ids2 = ids := by
            simpa using hscan
          subst hfs
          have hres := ih fs fs2 ids2 hrec hex hfail
          rw [List.cons_append, scanExpired, if_pos he, hpe]
          simp only [Bool.false_eq_true, if_false]
          rw [hres]
      | true =>
        cases hrf : FS.removeFails fs r0.path with
        | true =>
          rw [scanExpired, if_pos he, hpe, if_pos rfl, hrf] at hscan
          simp at hscan
        | false =>
          rw [scanExpired, if_pos he, hpe, if_pos rfl, hrf] at hscan
          simp only [Bool.false_eq_true, if_false] at hscan
          rcases hrec : scanExpired now tl (FS.remove fs r0.path) with ⟨fs2, o⟩
          rw [hrec] at hscan
          cases o with
          | none => simp at hscan
          | some ids2 =>
            obtain ⟨hfs, hids⟩ : fs2 = fs1 ∧ id0 :: ids2 = ids := by
              simpa using hscan
            subst hfs
            have hres := ih (FS.remove fs r0.path) fs2 ids2 hrec hex hfail
            rw [List.cons_append, scanExpired, if_pos he, hpe, if_pos rfl, hrf]
            simp only [Bool.false_eq_true, if_false]
            rw [hres]
    · rw [scanExpired, if_neg he] at hscan
      have hres := ih fs fs1 ids hscan hex hfail
      rw [List.cons_append, scanExpired, if_neg he, hres]

/-- C5 (amended): a failure while deleting the backing file of an
expired record aborts the whole pass — the source's try/except wraps
both loops of the pass, not each record.  For any store split as
`pre ++ failing :: post` where the scan of `pre` completes cleanly
(its expired records' files deleted, yielding filesystem `fs1`) and
the failing record is expired with an existing file whose deletion
raises: no record at all is removed from the mapping in that pass (not
the failing one, not the expired records of `pre`, not any record of
`post`); the records after the failing one are never examined (the
outcome is the same for every `post`); the file deletions `pre`
already performed persist (the final filesystem is exactly `fs1`); and
the exception is caught outside the loops, logged, and the next pass
runs. -/
theorem c5_remove_failure_aborts_pass (now : Nat) (idf : String)
    (rf : FileInfo) (pre post : List (String × FileInfo))
    (fs fs1 : FS) (ids : List String)
    (hpre : scanExpired now pre fs = (fs1, some ids))
    (h1 : now - rf.created_at > 3600)
    (hex : fs1.pathExists rf.path = true)
    (hfail : fs1.removeFails rf.path = true) :
    cleanup_pass now (pre ++ (idf, rf) :: post) fs =
      (pre ++ (idf, rf) :: post, fs1) := by
  have h := scanExpired_append_fails now idf rf post h1 pre fs fs1 ids hpre hex hfail
  rw [cleanup_pass, h]

/-- Fixtures for the C5 witness: one expired record whose file is
deleted before the failure, the failing record, and a later expired
record that is never examined. -/
def infoPc : FileInfo := { path := "pc", filename := "fc", created_at := 0 }

def fsW5 : FS := { files := ["pa", "pb", "pc"], failRemove := ["pb"] }

/-- C5 witness: the pass deletes the first expired record's file, then
the second record's deletion raises; the mapping keeps all three
records, the first deletion persists, and the third expired record's
file is untouched. -/
theorem c5_witness :
    cleanup_pass 4000 [("a", infoPa), ("b", infoPb), ("c", infoPc)] fsW5 =
      ([("a", infoPa), ("b", infoPb), ("c", infoPc)], fsW5.remove "pa") :=
  c5_remove_failure_aborts_pass 4000 "b" infoPb [("a", infoPa)] [("c", infoPc)]
    fsW5 (fsW5.remove "pa") ["a"] rfl (by decide) rfl rfl

/-- C6: one pass of the reclamation loop over a store holding one
expired and one non-expired record (in either order) removes exactly
the expired record from the mapping and deletes exactly its backing
file; the non-expired record and its file survive. -/
theorem c6_evict_expired_frame (now : Nat) (id1 id2 p1 p2 f1 f2 : String)
    (t1 t2 : Nat) (store : Store) (fs : FS)
    (hid : id1 ≠ id2) (hp : p1 ≠ p2)
    (h1 : now - t1 > 3600) (h2 : ¬(now - t2 > 3600))
    (hex1 : fs.pathExists p1 = true) (hex2 : fs.pathExists p2 = true)
    (hfail : fs.removeFails p1 = false)
    (hstore : store =
        [(id1, { path := p1, filename := f1, created_at := t1 }),
         (id2, { path := p2, filename := f2, created_at := t2 })] ∨
      store =
        [(id2, { path := p2, filename := f2, created_at := t2 }),
         (id1, { path := p1, filename := f1, created_at := t1 })]) :
    (cleanup_pass now store fs).1 =
      [(id2, { path := p2, filename := f2, created_at := t2 })] ∧
    (cleanup_pass now store fs).2 = fs.remove p1 ∧
    (fs.remove p1).pathExists p2 = true := by
  have hmem2 : p2 ∈ fs.files := by
    have := hex2
    unfold FS.pathExists at this
    exact List.elem_iff.mp this
  have hsurvive : (fs.remove p1).pathExists p2 = true := by
    unfold FS.pathExists FS.remove
    exact List.elem_iff.mpr ((List.mem_erase_of_ne hp.symm).mpr hmem2)
  refine ⟨?_, ?_, hsurvive⟩ <;>
    rcases hstore with rfl | rfl <;>
      simp [cleanup_pass, scanExpired, h1, h2, hex1, hfail, removeKey, hid,
        Ne.symm hid]

/-- Fixture: a non-expired record for the C6 witness. -/
def infoPbFresh : FileInfo := { path := "pb", filename := "fb", created_at := 3000 }

/-- Fixture: filesystem holding both backing files, no failures. -/
def fsC6 : FS := { files := ["pa", "pb"], failRemove := [] }

/-- C6 witness: concrete store with one expired and one fresh record. -/
theorem c6_witness :
    (cleanup_pass 4000 [("a", infoPa), ("b", infoPbFresh)] fsC6).1 =
      [("b", infoPbFresh)] ∧
    (cleanup_pass 4000 [("a", infoPa), ("b", infoPbFresh)] fsC6).2 =
      fsC6.remove "pa" ∧
    (fsC6.remove "pa").pathExists "pb" = true :=
  c6_evict_expired_frame 4000 "a" "b" "pa" "pb" "fa" "fb" 0 3000
    [("a", infoPa), ("b", infoPbFresh)] fsC6
    (by decide) (by decide) (by decide) (by decide) rfl rfl rfl (Or.inl rfl)

theorem download_response_shape (now : Nat) (id : String) (store : Store)
    (fs : FS) :
    (download_file now id store fs).2.2 = errorResponse 500 ∨
    ∃ fn, (download_file now id store fs).2.2 =
      { status := 200, body := Body.fileAttachment fn } := by
  unfold download_file
  rcases h : download_inner now id store fs with ⟨s, f, r⟩
  cases r with
  | ok info => exact Or.inr ⟨info.filename, rfl⟩
  | error e => exact Or.inl rfl

theorem generate_deck_response_shape (env : GenEnv) (data : Data)
    (store : Store) (fs : FS) :
    (∃ m, (generate_deck env data store fs).response =
      { status := 400, body := Body.jsonError m }) ∨
    (∃ m, (generate_deck env data store fs).response =
      { status := 500, body := Body.jsonError m }) ∨
    (∃ k, (generate_deck env data store fs).response =
      { status := 200, body := Body.jsonSuccess k }) := by
  unfold generate_deck
  cases hv : validate_input data with
  | attrError => exact Or.inr (Or.inl ⟨_, rfl⟩)
  | invalid m => exact Or.inl ⟨m, rfl⟩
  | ok =>
    dsimp only
    repeat' split
    all_goals first
      | exact Or.inr (Or.inl ⟨_, rfl⟩)
      | exact Or.inr (Or.inr ⟨_, rfl⟩)

/-- C4: every error response producible by the embedded HTTP surface
is a JSON object carrying an `error` string: the inline 400/500 bodies
of the generate handler, the 500 the download handler's catch-all
produces in each of its failure cases (including the expired case the
spec labels 410 — the catch-all absorbs the 410 and the registered 500
handler answers), and the registered 404 handler used for unknown
routes. -/
theorem c4_error_responses_json :
    (∀ (now : Nat) (id : String) (store : Store) (fs : FS),
      400 ≤ ((download_file now id store fs).2.2).status →
      ∃ m, ((download_file now id store fs).2.2).body = Body.jsonError m) ∧
    (∀ (env : GenEnv) (data : Data) (store : Store) (fs : FS),
      400 ≤ (generate_deck env data store fs).response.status →
      ∃ m, (generate_deck env data store fs).response.body = Body.jsonError m) ∧
    (errorResponse 404).body = Body.jsonError "File not found or expired" := by
  refine ⟨?_, ?_, rfl⟩
  · intro now id store fs h
    rcases download_response_shape now id store fs with he | ⟨fn, he⟩
    · rw [he]; exact ⟨"Internal server error", rfl⟩
    · rw [he] at h; simp at h
  · intro env data store fs h
    rcases generate_deck_response_shape env data store fs with
      ⟨m, he⟩ | ⟨m, he⟩ | ⟨k, he⟩
    · rw [he]; exact ⟨m, rfl⟩
    · rw [he]; exact ⟨m, rfl⟩
    · rw [he] at h; simp at h

/-- C4 witness: the download endpoint's error response for an unknown
identifier carries a JSON `error` body. -/
theorem c4_witness :
    ∃ m, ((download_file 0 "x" [] fs0).2.2).body = Body.jsonError m :=
  c4_error_responses_json.1 0 "x" [] fs0 (by decide)

theorem save_preserves_failRemove (decodeOk : String → Bool)
    (b64 fn : String) (fs : FS) :
    ((save_base64_image decodeOk b64 fn fs).1).failRemove = fs.failRemove := by
  unfold save_base64_image
  dsimp only
  split <;> rfl

theorem generate_deck_ok_response (env : GenEnv) (data : Data)
    (store : Store) (fs : FS)
    (hfr : fs.failRemove = []) (hv : validate_input data = ValResult.ok) :
    (generate_deck env data store fs).response =
      { status := 200,
        body := Body.jsonSuccess (generate_slide_content env.ext
          (pyStrip (getStrField data "company_name"))
          (pyStrip (getStrField data "industry"))
          (pyStrip (getStrField data "buyer_persona"))
          (pyStrip (getStrField data "main_pain_point"))
          (pyStrip (getStrField data "use_case"))).length } := by
  rcases hl : lookupField data "logo_base64" with _ | v
  · simp [generate_deck, hv, hl, truthy]
  · cases v with
    | str s =>
      cases hs : (s == "") with
      | true => simp [generate_deck, hv, hl, truthy, hs]
      | false =>
        cases hdec : env.decodeOk (stripDataUrl s) with
        | false => simp [generate_deck, hv, hl, truthy, hs, save_base64_image, hdec]
        | true =>
          simp only [generate_deck, hv, hl, truthy, hs, save_base64_image, hdec,
            Option.getD_some, Bool.not_false, if_true]
          split
          · split
            · rename_i hrf
              simp [FS.write, FS.removeFails, hfr] at hrf
            · rfl
          · rfl
    | num n => simp [generate_deck, hv, hl]
    | bool b => simp [generate_deck, hv, hl]
    | null => simp [generate_deck, hv, hl, truthy]

/-- C2 counterexample: a valid request whose external call succeeds
and parses to a single-slide reply is answered 200 with
`slides_generated` equal to 1, not 8 — the success path performs no
validation of the parsed slide count, refuting the claim for the
success case. -/
theorem c2_counterexample :
    validate_input dataW = ValResult.ok ∧
    (generate_deck { envW with ext := some [{ title := "T", content := ["a"] }] }
        dataW [] fs0).response =
      { status := 200, body := Body.jsonSuccess 1 } ∧
    (1 : Nat) ≠ 8 :=
  ⟨rfl, rfl, by decide⟩

/-- C2 (amended): for every valid input, `slides_generated` equals 8
whenever the external call fails or its reply is unparsable (the
fallback path); when the call succeeds and parses, it equals the slide
count of the parsed reply, which the code does not validate. -/
theorem c2_slides_generated (env : GenEnv) (data : Data) (store : Store)
    (fs : FS) (hfr : fs.failRemove = [])
    (hv : validate_input data = ValResult.ok) :
    (env.ext = none →
      (generate_deck env data store fs).response =
        { status := 200, body := Body.jsonSuccess 8 }) ∧
    (∀ sl, env.ext = some sl →
      (generate_deck env data store fs).response =
        { status := 200, body := Body.jsonSuccess sl.length }) := by
  have h := generate_deck_ok_response env data store fs hfr hv
  constructor
  · intro he; rw [h, he]; rfl
  · intro sl he; rw [h, he]; rfl

/-- C2 witness: concrete valid request on the fallback path. -/
theorem c2_witness :
    (generate_deck envW dataW [] fs0).response =
      { status := 200, body := Body.jsonSuccess 8 } :=
  (c2_slides_generated envW dataW [] fs0 rfl rfl).1 rfl

/-- C8: the fallback template is the slide list `generate_slide_content`
returns whenever the external path fails; it is a total function of the
input strings (a Lean function, hence deterministic), always yields
exactly 8 slides, each with 3 to 5 bullet points, and substitutes the
company name, industry, pain point and use case into its fixed
placeholder positions. -/
theorem c8_fallback_template_shape (c i b m u : String) :
    generate_slide_content none c i b m u = fallback_slides c i m u ∧
    (fallback_slides c i m u).length = 8 ∧
    (∀ s ∈ fallback_slides c i m u,
      3 ≤ s.content.length ∧ s.content.length ≤ 5) ∧
    ((fallback_slides c i m u).getD 0 { title := "", content := [] }).title =
      "Welcome to " ++ c ∧
    ("Professional solutions for " ++ i) ∈
      ((fallback_slides c i m u).getD 0 { title := "", content := [] }).content ∧
    (fallback_slides c i m u).getD 1 { title := "", content := [] } =
      { title := "The Challenge",
        content := [m, "Industry-wide impact", "Need for solution"] } ∧
    (fallback_slides c i m u).getD 4 { title := "", content := [] } =
      { title := "Use Case",
        content := [u, "Implementation strategy", "Expected outcomes"] } := by
  refine ⟨rfl, rfl, ?_, rfl, ?_, rfl, rfl⟩
  · intro s hs
    simp only [fallback_slides, List.mem_cons, List.not_mem_nil, or_false] at hs
    rcases hs with rfl | rfl | rfl | rfl | rfl | rfl | rfl | rfl <;> simp
  · simp [fallback_slides]

/-- C8 witness: the second fallback slide at concrete inputs has
between 3 and 5 bullets. -/
theorem c8_witness :
    3 ≤ ((fallback_slides "A" "I" "M" "U").getD 1
      { title := "", content := [] }).content.length ∧
    ((fallback_slides "A" "I" "M" "U").getD 1
      { title := "", content := [] }).content.length ≤ 5 :=
  (c8_fallback_template_shape "A" "I" "B" "M" "U").2.2.1
    ((fallback_slides "A" "I" "M" "U").getD 1 { title := "", content := [] })
    (by decide)

/-- C9: for an otherwise valid request whose non-empty `logo_base64`
value fails to base64-decode, `save_base64_image` catches the error and
returns no path instead of raising, the renderer is invoked without a
logo (and places none), and the request still completes with 200 and
registers the new deck record in the store. -/
theorem c9_malformed_logo_still_produces (env : GenEnv) (data : Data)
    (store : Store) (fs : FS) (s : String)
    (hv : validate_input data = ValResult.ok)
    (hlv : lookupField data "logo_base64" = some (JValue.str s))
    (hs : (s == "") = false)
    (hdec : env.decodeOk (stripDataUrl s) = false) :
    save_base64_image env.decodeOk s ("logo_" ++ env.logo_uuid ++ ".png") fs =
      (fs, none) ∧
    (generate_deck env data store fs).logoPath = none ∧
    (generate_deck env data store fs).response.status = 200 ∧
    (create_powerpoint (generate_slide_content env.ext
      (pyStrip (getStrField data "company_name"))
      (pyStrip (getStrField data "industry"))
      (pyStrip (getStrField data "buyer_persona"))
      (pyStrip (getStrField data "main_pain_point"))
      (pyStrip (getStrField data "use_case")))
      (pyStrip (getStrField data "company_name")) none fs).logoIncluded = false ∧
    (generate_deck env data store fs).store = store ++ [(env.file_id,
      { path := "temp_files/" ++
          deckFilename (pyStrip (getStrField data "company_name")) env.file_id,
        filename := deckFilename (pyStrip (getStrField data "company_name")) env.file_id,
        created_at := env.now })] := by
  have hsave : save_base64_image env.decodeOk s
      ("logo_" ++ env.logo_uuid ++ ".png") fs = (fs, none) := by
    unfold save_base64_image
    dsimp only
    rw [hdec]
    simp
  refine ⟨hsave, ?_, ?_, rfl, ?_⟩ <;>
    simp [generate_deck, hv, hlv, truthy, hs, hsave]

/-- Fixture: a valid request body carrying an undecodable logo. -/
def dataLogo : Data := dataW ++ [("logo_base64", JValue.str "bogus")]

/-- C9 witness: concrete valid request with a malformed logo value. -/
theorem c9_witness :
    (generate_deck envW dataLogo [] fs0).logoPath = none ∧
    (generate_deck envW dataLogo [] fs0).response.status = 200 := by
  have h := c9_malformed_logo_still_produces envW dataLogo [] fs0 "bogus"
    rfl rfl rfl rfl
  exact ⟨h.2.1, h.2.2.1⟩
